import Mathlib

/-!
Shallow embedding of `src/Main.py` (a headless-browser search script with
optional Tor identity rotation) and proofs about its behaviour.

The script has no algorithmic core beyond resource lifetimes and proxy
selection, so the embedding models the orchestrator `main` (lines 90-161),
the browser context manager `new_browser` (lines 40-52) and the page routine
`run_search` (lines 55-83) as trace-producing functions.  All interaction
with the outside world (the stem library being importable, the
`TOR_CONTROL_PASSWD` environment variable, control-port authentication,
per-iteration NEWNYM outcomes, per-iteration search outcomes) is supplied by
an explicit `World` record, and the functions return the ordered list of
observable events together with the run outcome.  Python exceptions are
modelled as explicit outcome values: a `PlaywrightTimeoutError` raised by
`run_search` is the `timeout` outcome (caught by the loop at line 155), and
any other uncaught exception is the `fatal` outcome (not caught anywhere).
-/

/-- Observable events of one run, in program order.  `browserLaunch i p`
is the launch performed by `new_browser` for iteration `i` behind proxy `p`
(line 43), `browserClose i` the paired teardown in its `finally` block
(lines 51-52), `searchRun i q` the call `run_search(ctx, query)` (line 154),
`renewSent`/`renewFailed` the NEWNYM signal attempt (lines 145-149),
`iterLog` the banner print (line 151), `timeoutLogged` the handler at
lines 155-156, `torAuth` the successful authentication print (line 124) and
`controllerClose` the call `controller.close()` (line 160). -/
inductive Event where
  | torAuth
  | renewSent (i : Nat)
  | renewFailed (i : Nat)
  | iterLog (i : Nat) (proxy : Option String)
  | browserLaunch (i : Nat) (proxy : Option String)
  | searchRun (i : Nat) (query : String)
  | browserClose (i : Nat)
  | timeoutLogged (i : Nat)
  | controllerClose
  deriving DecidableEq, Repr

/-- Outcome of one `run_search` call as seen by the loop body: it returned
normally, raised `PlaywrightTimeoutError`, or raised some other
(uncaught) exception. -/
inductive SearchOutcome where
  | ok
  | timeout
  | fatal
  deriving DecidableEq, Repr

/-- Outcome of a whole run of `main`: normal return (process exit status 0)
or an uncaught exception carrying a message (non-zero exit status). -/
inductive RunResult where
  | ok
  | fatal (msg : String)
  deriving DecidableEq, Repr

/-- Everything the script observes from its environment. -/
structure World where
  /-- the `from stem.control import Controller` import succeeded (line 30-34) -/
  stemInstalled : Bool
  /-- value of `os.getenv("TOR_CONTROL_PASSWD")` (line 117) -/
  torPasswd : Option String
  /-- `Controller.from_port` plus `authenticate` succeed (lines 122-123) -/
  torAuthOk : Bool
  /-- whether iteration `i`'s `controller.signal(Signal.NEWNYM)` succeeds (line 145) -/
  renewOk : Nat → Bool
  /-- outcome of iteration `i`'s `run_search` call (line 154) -/
  search : Nat → SearchOutcome

/-- Parsed command line (lines 91-109): positional `query`, `--iterations`
(a Python `int`, accepted without validation, hence `Int`), `--proxy-list`
(zero or more URLs) and the `--tor` flag. -/
structure Args where
  query : String
  iterations : Int
  proxy_list : List String
  tor : Bool

/-- The fixed local Tor SOCKS address used when `--tor` is set (line 133). -/
def torSocks : String := "socks5://127.0.0.1:9050"

def emptyStr : String := ""

def msgStem : String := "Missing stem library"

def msgPasswd : String := "Environment variable TOR_CONTROL_PASSWD is not set"

def msgAuth : String := "Could not authenticate to Tor control port"

def msgIter : String := "uncaught exception during an iteration"

/-- Python truthiness of `tor_pass` at line 118: `None` and the empty string
are both falsy. -/
def passwdSet : Option String → Bool
  | Option.none => false
  | Option.some p => !p.isEmpty

/-- Lines 130-135: the `proxies` list.  With `--tor` it is the Tor SOCKS
address repeated `iterations` times (`[x] * n` is empty for `n ≤ 0`);
otherwise it is `args.proxy_list or [None]`. -/
def buildProxies (args : Args) : List (Option String) :=
  if args.tor then
    List.replicate args.iterations.toNat (Option.some torSocks)
  else if args.proxy_list.isEmpty then [Option.none]
  else args.proxy_list.map Option.some

/-- Line 140: `proxy = proxies[i % len(proxies)]`.  On every path the loop
executes, `proxies` is non-empty, so the index is in range and the default
value is never used. -/
def selectProxy (proxies : List (Option String)) (i : Nat) : Option String :=
  proxies.getD (i % proxies.length) Option.none

/-- Proxy selector of iteration `i` under configuration `args`. -/
def iterProxy (args : Args) (i : Nat) : Option String :=
  selectProxy (buildProxies args) i

/-- Lines 143-149: the NEWNYM attempt of iteration `i`, performed only when
a controller is open; a failure is caught and logged (non-fatal). -/
def renewEvents (w : World) (hasCtl : Bool) (i : Nat) : List Event :=
  if hasCtl then
    if w.renewOk i then [Event.renewSent i] else [Event.renewFailed i]
  else []

/-- Lines 40-52: the `new_browser` context manager.  It launches a fresh
browser behind `proxy`, yields a fresh context to `body`, and its `finally`
block closes context and browser whether `body` returned or raised, so the
close event follows the body's events unconditionally.  The iteration index
serves as the identity of the fresh instance created by this call. -/
def new_browser (i : Nat) (proxy : Option String) (body : List Event) : List Event :=
  [Event.browserLaunch i proxy] ++ (body ++ [Event.browserClose i])

/-- Events of iteration `i` before the browser work: the NEWNYM attempt and
the iteration banner (lines 143-151). -/
def iterPre (w : World) (hasCtl : Bool) (ps : List (Option String)) (i : Nat) : List Event :=
  renewEvents w hasCtl i ++ [Event.iterLog i (selectProxy ps i)]

/-- Events of iteration `i`'s `with new_browser(...) as ctx: run_search(...)`
(lines 153-154): launch, the search call, then the guaranteed teardown.
The teardown happens on every outcome because it lives in `new_browser`'s
`finally` block. -/
def iterCore (ps : List (Option String)) (q : String) (i : Nat) : List Event :=
  new_browser i (selectProxy ps i) [Event.searchRun i q]

/-- Events of iteration `i` after the browser scope: the timeout handler at
lines 155-156 logs a `PlaywrightTimeoutError`; other outcomes log nothing. -/
def iterPost (w : World) (i : Nat) : List Event :=
  match w.search i with
  | SearchOutcome.timeout => [Event.timeoutLogged i]
  | _ => []

/-- One execution of the loop body (lines 139-156) at index `i`: its events,
and `true` when `run_search` raised an exception that is not a
`PlaywrightTimeoutError`, which nothing in the body catches. -/
def iterEvents (w : World) (hasCtl : Bool) (q : String) (ps : List (Option String))
    (i : Nat) : List Event × Bool :=
  (iterPre w hasCtl ps i ++ (iterCore ps q i ++ iterPost w i),
   match w.search i with
   | SearchOutcome.fatal => true
   | _ => false)

/-- The `for i in range(args.iterations)` loop (line 139) over the list of
indices still to run: an uncaught (non-timeout) exception ends the loop at
once and propagates; otherwise the loop continues. -/
def runIters (w : World) (hasCtl : Bool) (q : String) (ps : List (Option String)) :
    List Nat → List Event × Bool
  | [] => ([], false)
  | i :: rest =>
    let r := iterEvents w hasCtl q ps i
    if r.2 then (r.1, true)
    else ((r.1 ++ (runIters w hasCtl q ps rest).1), (runIters w hasCtl q ps rest).2)

/-- Concatenated events of the loop body over a list of indices, used to
describe `runIters` on runs where no iteration raises an uncaught
non-timeout error. -/
def itersTrace (w : World) (hasCtl : Bool) (q : String) (ps : List (Option String))
    (l : List Nat) : List Event :=
  (l.map fun i => (iterEvents w hasCtl q ps i).1).flatten

/-- The `main` routine (lines 90-161).  With `--tor`, the controller is set
up before any browser work: a missing stem import (line 113), an unset or
empty `TOR_CONTROL_PASSWD` (line 118) or an authentication failure
(lines 121-126) each raise `RuntimeError` immediately.  After the loop,
`controller.close()` (line 160) runs only on the fall-through path: it is
not inside any `try/finally`, so an uncaught exception from the loop skips
it. -/
def runMain (w : World) (args : Args) : List Event × RunResult :=
  if args.tor then
    if w.stemInstalled = false then ([], RunResult.fatal msgStem)
    else if passwdSet w.torPasswd = false then ([], RunResult.fatal msgPasswd)
    else if w.torAuthOk = false then ([], RunResult.fatal msgAuth)
    else
      let r := runIters w true args.query (buildProxies args)
        (List.range args.iterations.toNat)
      if r.2 then ([Event.torAuth] ++ r.1, RunResult.fatal msgIter)
      else ([Event.torAuth] ++ (r.1 ++ [Event.controllerClose]), RunResult.ok)
  else
    let r := runIters w false args.query (buildProxies args)
      (List.range args.iterations.toNat)
    if r.2 then (r.1, RunResult.fatal msgIter)
    else (r.1, RunResult.ok)

/-- Events produced by the whole iteration loop of a run. -/
def itersFst (w : World) (args : Args) : List Event :=
  (runIters w args.tor args.query (buildProxies args)
    (List.range args.iterations.toNat)).1

/-- The controller `open()` of lines 112-126 succeeded: `--tor` was set, the
stem import worked, the password variable is set and non-empty, and the
control-port authentication succeeded. -/
def torOpenSucceeded (w : World) (args : Args) : Prop :=
  args.tor = true ∧ w.stemInstalled = true ∧
    passwdSet w.torPasswd = true ∧ w.torAuthOk = true

/-- The controller `open()` of lines 112-126 failed for one of its three
possible reasons. -/
def torOpenFails (w : World) : Prop :=
  w.stemInstalled = false ∨ passwdSet w.torPasswd = false ∨ w.torAuthOk = false

/-- Number of occurrences of the exact event `e` in a trace. -/
def countEv (e : Event) (tr : List Event) : Nat :=
  (tr.filter (fun x => decide (x = e))).length

def isBrowserLaunch : Event → Bool
  | Event.browserLaunch _ _ => true
  | _ => false

def isBrowserClose : Event → Bool
  | Event.browserClose _ => true
  | _ => false

def isSearchRun : Event → Bool
  | Event.searchRun _ _ => true
  | _ => false

/-- Recognises the launch event of the browser instance of iteration `i`. -/
def isLaunchAt (i : Nat) : Event → Bool
  | Event.browserLaunch j _ => j == i
  | _ => false

/-- Number of browser contexts live after a trace: launches minus closes. -/
def live (tr : List Event) : Int :=
  ((tr.filter isBrowserLaunch).length : Int) - ((tr.filter isBrowserClose).length : Int)

/-- At every instant of the trace, the number of live browser contexts is
between 0 and 1. -/
def BoundedLive (tr : List Event) : Prop :=
  ∀ n : Nat, 0 ≤ live (tr.take n) ∧ live (tr.take n) ≤ 1

/-- Number of launches of iteration `i`'s browser instance in a trace. -/
def countLaunchAt (i : Nat) (tr : List Event) : Nat :=
  (tr.filter (isLaunchAt i)).length

/-- What a single `run_search` call can observe of the page
(lines 55-83): whether `page.goto` exceeds its 45 s budget, what the
consent-banner lookup does, whether the query input is present (Playwright's
`fill` waits for the element and raises `PlaywrightTimeoutError` when it
never appears), whether an `h3` appears within the 20 s window of
`wait_for_selector`, and the `h3` elements present in document order when
`query_selector("h3")` runs afterwards. -/
structure PageModel where
  gotoTimesOut : Bool
  consentLookupTimesOut : Bool
  consentButton : Bool
  queryInputPresent : Bool
  headingAppears : Bool
  headings : List String

/-- Page-level events of one `run_search` call, in program order. -/
inductive SEvent where
  | goto (timeoutMs : Nat)
  | consentClick
  | fill (q : String)
  | pressEnter
  | waitResults (timeoutMs : Nat)
  | clickResult (h : String)
  | warnNoResults
  | settle (secs : Nat)
  deriving DecidableEq, Repr

/-- Result of one `run_search` call: normal return, or a propagated
`PlaywrightTimeoutError`. -/
inductive SResult where
  | ok
  | timeout
  deriving DecidableEq, Repr

/-- Navigation budget at line 60: `timeout=45_000` milliseconds. -/
def gotoTimeoutMs : Nat := 45000

/-- Result-wait budget at line 75: `timeout=20_000` milliseconds. -/
def resultTimeoutMs : Nat := 20000

/-- Settle pause at line 83: `time.sleep(3)`. -/
def settleSecs : Nat := 3

/-- Lines 55-83: `run_search`.  Navigation timeouts propagate (line 60); a
timeout in the consent lookup is swallowed (lines 63-68); `fill`/`press`
propagate a timeout when the input is absent (lines 71-72); the result wait
propagates its timeout (line 75); after it, the first `h3` in document order
is clicked when one exists, else a warning is printed and the click skipped
(lines 76-80); finally a fixed settle pause (line 83). -/
def run_search (pg : PageModel) (query : String) : List SEvent × SResult :=
  if pg.gotoTimesOut then ([SEvent.goto gotoTimeoutMs], SResult.timeout)
  else
    let consentEvs :=
      if pg.consentLookupTimesOut then []
      else if pg.consentButton then [SEvent.consentClick] else []
    if pg.queryInputPresent = false then
      ([SEvent.goto gotoTimeoutMs] ++ consentEvs ++ [SEvent.fill query], SResult.timeout)
    else
      let pre := [SEvent.goto gotoTimeoutMs] ++ consentEvs ++
        [SEvent.fill query, SEvent.pressEnter]
      if pg.headingAppears = false then
        (pre ++ [SEvent.waitResults resultTimeoutMs], SResult.timeout)
      else
        match pg.headings with
        | [] =>
          (pre ++ [SEvent.waitResults resultTimeoutMs, SEvent.warnNoResults,
            SEvent.settle settleSecs], SResult.ok)
        | h :: _ =>
          (pre ++ [SEvent.waitResults resultTimeoutMs, SEvent.clickResult h,
            SEvent.settle settleSecs], SResult.ok)

/-! Sample configurations used as concrete inputs. -/

def pwSample : String := "pw"

def qSample : String := "openai"

def qTest : String := "test"

def proxyA : String := "socks5://a.example:1080"

def proxyB : String := "socks5://b.example:1080"

def hSample : String := "First result"

def wGood : World :=
  { stemInstalled := true
    torPasswd := Option.some pwSample
    torAuthOk := true
    renewOk := fun _ => true
    search := fun _ => SearchOutcome.ok }

def wCrash : World :=
  { stemInstalled := true
    torPasswd := Option.some pwSample
    torAuthOk := true
    renewOk := fun _ => true
    search := fun _ => SearchOutcome.fatal }

def wStemless : World :=
  { stemInstalled := false
    torPasswd := Option.some pwSample
    torAuthOk := true
    renewOk := fun _ => true
    search := fun _ => SearchOutcome.ok }

def wTimeoutFirst : World :=
  { stemInstalled := true
    torPasswd := Option.some pwSample
    torAuthOk := true
    renewOk := fun _ => true
    search := fun j => if j = 0 then SearchOutcome.timeout else SearchOutcome.ok }

def wRenewFail : World :=
  { stemInstalled := true
    torPasswd := Option.some pwSample
    torAuthOk := true
    renewOk := fun _ => false
    search := fun _ => SearchOutcome.ok }

def argsTor1 : Args :=
  { query := qSample, iterations := 1, proxy_list := [], tor := true }

def argsTor2 : Args :=
  { query := qSample, iterations := 2, proxy_list := [], tor := true }

def argsList5 : Args :=
  { query := qSample, iterations := 5, proxy_list := [proxyA, proxyB], tor := false }

def argsPlain2 : Args :=
  { query := qSample, iterations := 2, proxy_list := [], tor := false }

def argsTest3 : Args :=
  { query := qTest, iterations := 3, proxy_list := [], tor := false }

def argsTorNeg : Args :=
  { query := qSample, iterations := -3, proxy_list := [proxyA], tor := true }

def argsTorList : Args :=
  { query := qSample, iterations := 2, proxy_list := [proxyA, proxyB], tor := true }

def pgFound : PageModel :=
  { gotoTimesOut := false
    consentLookupTimesOut := false
    consentButton := true
    queryInputPresent := true
    headingAppears := true
    headings := [hSample] }

/-! Helper lemmas about traces. -/

theorem countEv_append (e : Event) (a b : List Event) :
    countEv e (a ++ b) = countEv e a + countEv e b := by
  simp [countEv, List.filter_append]

theorem countEv_of_not_mem (e : Event) (tr : List Event) (h : e ∉ tr) :
    countEv e tr = 0 := by
  simp only [countEv, List.length_eq_zero, List.filter_eq_nil_iff]
  intro a ha
  simp only [decide_eq_true_eq]
  intro hae
  exact h (hae ▸ ha)

theorem iterEvents_snd_iff (w : World) (c : Bool) (q : String)
    (ps : List (Option String)) (i : Nat) :
    (iterEvents w c q ps i).2 = true ↔ w.search i = SearchOutcome.fatal := by
  cases hs : w.search i <;> simp [iterEvents, hs]

theorem controllerClose_not_mem_iter (w : World) (c : Bool) (q : String)
    (ps : List (Option String)) (i : Nat) :
    Event.controllerClose ∉ (iterEvents w c q ps i).1 := by
  cases hs : w.search i <;> cases c <;> by_cases hr : w.renewOk i <;>
    simp [iterEvents, iterPre, iterCore, iterPost, renewEvents, new_browser, hs, hr]

theorem controllerClose_not_mem_runIters (w : World) (c : Bool) (q : String)
    (ps : List (Option String)) (l : List Nat) :
    Event.controllerClose ∉ (runIters w c q ps l).1 := by
  induction l with
  | nil => simp [runIters]
  | cons i rest ih =>
    simp only [runIters]
    split
    · exact controllerClose_not_mem_iter w c q ps i
    · intro hmem
      rcases List.mem_append.mp hmem with h | h
      · exact controllerClose_not_mem_iter w c q ps i h
      · exact ih h

theorem countEv_cons_ne (e a : Event) (tr : List Event) (h : a ≠ e) :
    countEv e (a :: tr) = countEv e tr := by
  simp [countEv, List.filter_cons, h]

/-- C1 (amended): when `open()` succeeded, `controller.close()` runs exactly
once if the run ends normally, and zero times if an iteration raised an
uncaught non-timeout error — the close call at line 160 is not inside a
guaranteed-cleanup block, so such an error skips it. -/
theorem C1_close_iff_loop_completes (w : World) (args : Args)
    (h : torOpenSucceeded w args) :
    countEv Event.controllerClose (runMain w args).1 =
      (if (runMain w args).2 = RunResult.ok then 1 else 0) := by
  obtain ⟨ht, hs, hp, ha⟩ := h
  simp only [runMain, ht, hs, hp, ha, if_true]
  norm_num
  split
  · rw [countEv_cons_ne _ _ _ (by simp), countEv_of_not_mem _ _
      (controllerClose_not_mem_runIters w true args.query (buildProxies args)
        (List.range args.iterations.toNat))]
    simp [msgIter]
  · rw [countEv_cons_ne _ _ _ (by simp), countEv_append,
      countEv_of_not_mem _ _
        (controllerClose_not_mem_runIters w true args.query (buildProxies args)
          (List.range args.iterations.toNat))]
    simp [countEv]

/-- C1 witness: a concrete tor-enabled run that completes normally closes
the controller exactly once. -/
theorem C1_witness :
    countEv Event.controllerClose (runMain wGood argsTor2).1 =
      (if (runMain wGood argsTor2).2 = RunResult.ok then 1 else 0) :=
  C1_close_iff_loop_completes wGood argsTor2 ⟨rfl, rfl, rfl, rfl⟩

/-- C1 counterexample: with the controller opened successfully and
iteration 0's search raising an uncaught non-timeout error, the run aborts
and `controller.close()` is called zero times, not once — the claim's
guaranteed-cleanup assertion fails on the code. -/
theorem C1_counterexample :
    torOpenSucceeded wCrash argsTor1 ∧
    wCrash.search 0 = SearchOutcome.fatal ∧
    (runMain wCrash argsTor1).2 ≠ RunResult.ok ∧
    countEv Event.controllerClose (runMain wCrash argsTor1).1 = 0 := by
  refine ⟨⟨rfl, rfl, rfl, rfl⟩, rfl, ?_, ?_⟩ <;> decide

theorem getD_map_some (l : List String) (k : Nat) (hk : k < l.length) :
    (l.map Option.some).getD k Option.none = Option.some (l.getD k emptyStr) := by
  induction l generalizing k with
  | nil => simp at hk
  | cons a t ih =>
    cases k with
    | zero => simp
    | succ k =>
      simp only [List.map_cons, List.getD_cons_succ]
      exact ih k (by simp at hk; omega)

theorem getD_replicate_mem (x : Option String) (n k : Nat) (hk : k < n) :
    (List.replicate n x).getD k Option.none = x := by
  induction n generalizing k with
  | zero => omega
  | succ n ih =>
    cases k with
    | zero => simp [List.replicate_succ]
    | succ k =>
      simp only [List.replicate_succ, List.getD_cons_succ]
      exact ih k (by omega)

/-- C2: with `--tor` off and a non-empty proxy list, iteration `i` runs
behind `proxy_list[i mod len(proxy_list)]`, cycling through the list. -/
theorem C2_proxy_cycles (args : Args) (i : Nat)
    (h1 : args.tor = false) (h2 : args.proxy_list ≠ []) :
    iterProxy args i =
      Option.some (args.proxy_list.getD (i % args.proxy_list.length) emptyStr) := by
  have hlen : 0 < args.proxy_list.length := List.length_pos.mpr h2
  unfold iterProxy selectProxy buildProxies
  rw [if_neg (by simp [h1]), if_neg (by simp [List.isEmpty_iff, h2])]
  rw [List.length_map]
  exact getD_map_some args.proxy_list _ (Nat.mod_lt i hlen)

/-- C2 witness: `proxy_list = [A, B]`, `iterations = 5`: iteration 4 uses
`proxy_list[4 mod 2] = A` (the selections cycle `A, B, A, B, A`). -/
theorem C2_witness :
    iterProxy argsList5 4 =
      Option.some (argsList5.proxy_list.getD (4 % argsList5.proxy_list.length) emptyStr) :=
  C2_proxy_cycles argsList5 4 rfl (by simp [argsList5])

/-- C3: with `--tor` set, every iteration index below the planned count
selects the fixed local Tor SOCKS address, whatever `proxy_list` holds. -/
theorem C3_tor_fixed_proxy (args : Args) (i : Nat)
    (h1 : args.tor = true) (h2 : i < args.iterations.toNat) :
    iterProxy args i = Option.some torSocks := by
  unfold iterProxy selectProxy buildProxies
  rw [if_pos h1, List.length_replicate]
  exact getD_replicate_mem _ _ _ (Nat.mod_lt i (by omega))

/-- C3 witness: a tor-enabled two-iteration run with a non-empty
`proxy_list` still selects the Tor SOCKS address at iteration 1. -/
theorem C3_witness : iterProxy argsTorList 1 = Option.some torSocks :=
  C3_tor_fixed_proxy argsTorList 1 rfl (by decide)

/-- C4: with `--tor` set, any failure of the controller setup — missing stem
import, unset (or empty) `TOR_CONTROL_PASSWD`, or a connect/authenticate
failure — aborts the run with a fatal error before any browser work: the
trace is empty, so there are zero browser launches and zero search calls. -/
theorem C4_tor_open_failure_aborts (w : World) (args : Args)
    (h1 : args.tor = true) (h2 : torOpenFails w) :
    (runMain w args).1 = [] ∧
    ((runMain w args).1.filter isBrowserLaunch).length = 0 ∧
    ((runMain w args).1.filter isSearchRun).length = 0 ∧
    (runMain w args).2 ≠ RunResult.ok := by
  by_cases hs : w.stemInstalled = false
  · simp [runMain, h1, hs]
  · by_cases hp : passwdSet w.torPasswd = false
    · simp [runMain, h1, hs, hp]
    · by_cases ha : w.torAuthOk = false
      · simp [runMain, h1, hs, hp, ha]
      · rcases h2 with h | h | h <;> simp_all

/-- C4 witness: `--tor` with the stem library missing aborts with an empty
trace. -/
theorem C4_witness :
    (runMain wStemless argsTor1).1 = [] ∧
    ((runMain wStemless argsTor1).1.filter isBrowserLaunch).length = 0 ∧
    ((runMain wStemless argsTor1).1.filter isSearchRun).length = 0 ∧
    (runMain wStemless argsTor1).2 ≠ RunResult.ok :=
  C4_tor_open_failure_aborts wStemless argsTor1 rfl (Or.inl rfl)

/-! Behaviour of the loop on runs without uncaught non-timeout errors. -/

theorem runIters_eq_of_no_fatal (w : World) (c : Bool) (q : String)
    (ps : List (Option String)) (l : List Nat)
    (h : ∀ j ∈ l, w.search j ≠ SearchOutcome.fatal) :
    runIters w c q ps l = (itersTrace w c q ps l, false) := by
  induction l with
  | nil => simp [runIters, itersTrace]
  | cons i rest ih =>
    have hi : w.search i ≠ SearchOutcome.fatal := h i (List.mem_cons_self i rest)
    have hsnd : (iterEvents w c q ps i).2 = false := by
      cases hb : (iterEvents w c q ps i).2 with
      | false => rfl
      | true => exact absurd ((iterEvents_snd_iff w c q ps i).mp hb) hi
    simp only [runIters, hsnd]
    rw [ih (fun j hj => h j (List.mem_cons_of_mem i hj))]
    simp [itersTrace]

theorem mem_itersTrace (w : World) (c : Bool) (q : String) (ps : List (Option String))
    (l : List Nat) (e : Event) :
    e ∈ itersTrace w c q ps l ↔ ∃ i ∈ l, e ∈ (iterEvents w c q ps i).1 := by
  simp [itersTrace]

theorem timeoutLogged_mem_iter (w : World) (c : Bool) (q : String)
    (ps : List (Option String)) (i : Nat) (h : w.search i = SearchOutcome.timeout) :
    Event.timeoutLogged i ∈ (iterEvents w c q ps i).1 := by
  simp [iterEvents, iterPre, iterCore, iterPost, new_browser, h]

theorem browserLaunch_mem_iter (w : World) (c : Bool) (q : String)
    (ps : List (Option String)) (i : Nat) :
    Event.browserLaunch i (selectProxy ps i) ∈ (iterEvents w c q ps i).1 := by
  simp [iterEvents, iterPre, iterCore, new_browser]

theorem renewFailed_mem_iter (w : World) (q : String) (ps : List (Option String))
    (i : Nat) (h : w.renewOk i = false) :
    Event.renewFailed i ∈ (iterEvents w true q ps i).1 := by
  simp [iterEvents, iterPre, renewEvents, h]

theorem mem_runMain_of_mem_iters (w : World) (args : Args) (e : Event)
    (hopen : args.tor = true → torOpenSucceeded w args)
    (hnf : ∀ j, w.search j ≠ SearchOutcome.fatal)
    (hmem : ∃ i ∈ List.range args.iterations.toNat,
      e ∈ (iterEvents w args.tor args.query (buildProxies args) i).1) :
    e ∈ (runMain w args).1 := by
  cases ht : args.tor with
  | true =>
    rw [ht] at hmem
    obtain ⟨-, hs, hp, ha⟩ := hopen ht
    have hrw := runIters_eq_of_no_fatal w true args.query (buildProxies args)
      (List.range args.iterations.toNat) (fun j _ => hnf j)
    simp only [runMain, ht, hs, hp, ha, if_true]
    norm_num
    rw [hrw]
    have hm := (mem_itersTrace w true args.query (buildProxies args)
      (List.range args.iterations.toNat) e).mpr hmem
    simp [hm]
  | false =>
    rw [ht] at hmem
    have hrw := runIters_eq_of_no_fatal w false args.query (buildProxies args)
      (List.range args.iterations.toNat) (fun j _ => hnf j)
    simp only [runMain, ht]
    norm_num
    rw [hrw]
    have hm := (mem_itersTrace w false args.query (buildProxies args)
      (List.range args.iterations.toNat) e).mpr hmem
    simp [hm]

theorem runMain_ok_of_no_fatal (w : World) (args : Args)
    (hopen : args.tor = true → torOpenSucceeded w args)
    (hnf : ∀ j, w.search j ≠ SearchOutcome.fatal) :
    (runMain w args).2 = RunResult.ok := by
  cases ht : args.tor with
  | true =>
    obtain ⟨-, hs, hp, ha⟩ := hopen ht
    have hrw := runIters_eq_of_no_fatal w true args.query (buildProxies args)
      (List.range args.iterations.toNat) (fun j _ => hnf j)
    simp only [runMain, ht, hs, hp, ha, if_true]
    norm_num
    rw [hrw]
    simp
  | false =>
    have hrw := runIters_eq_of_no_fatal w false args.query (buildProxies args)
      (List.range args.iterations.toNat) (fun j _ => hnf j)
    simp only [runMain, ht]
    norm_num
    rw [hrw]
    simp

/-- C5: when iteration `k`'s search raises a `PlaywrightTimeoutError` and
`k` is not the last planned iteration, the timeout is logged and iteration
`k + 1` still launches its browser — a single timeout never aborts the run
(stated on runs whose other iterations raise no uncaught non-timeout
error, the only case the code leaves the loop running). -/
theorem C5_timeout_logged_next_runs (w : World) (args : Args) (k : Nat)
    (hopen : args.tor = true → torOpenSucceeded w args)
    (hnf : ∀ j, w.search j ≠ SearchOutcome.fatal)
    (hk : w.search k = SearchOutcome.timeout)
    (hlt : k + 1 < args.iterations.toNat) :
    Event.timeoutLogged k ∈ (runMain w args).1 ∧
    Event.browserLaunch (k + 1) (iterProxy args (k + 1)) ∈ (runMain w args).1 := by
  constructor
  · exact mem_runMain_of_mem_iters w args _ hopen hnf
      ⟨k, List.mem_range.mpr (by omega), timeoutLogged_mem_iter w args.tor args.query
        (buildProxies args) k hk⟩
  · exact mem_runMain_of_mem_iters w args _ hopen hnf
      ⟨k + 1, List.mem_range.mpr hlt, browserLaunch_mem_iter w args.tor args.query
        (buildProxies args) (k + 1)⟩

/-- C5 witness: iteration 0 of a plain two-iteration run times out; the
timeout is logged and iteration 1 still launches a browser. -/
theorem C5_witness :
    Event.timeoutLogged 0 ∈ (runMain wTimeoutFirst argsPlain2).1 ∧
    Event.browserLaunch 1 (iterProxy argsPlain2 1) ∈ (runMain wTimeoutFirst argsPlain2).1 :=
  C5_timeout_logged_next_runs wTimeoutFirst argsPlain2 0
    (fun h => Bool.noConfusion h)
    (fun j => by by_cases hj : j = 0 <;> simp [wTimeoutFirst, hj])
    (by simp [wTimeoutFirst])
    (by decide)

/-- C6: when the NEWNYM signal of iteration `i` fails, the failure is
logged and the same iteration still acquires its browser session; the run
is not aborted (it ends normally when no search raises an uncaught
non-timeout error). -/
theorem C6_renew_failure_nonfatal (w : World) (args : Args) (i : Nat)
    (hopen : torOpenSucceeded w args)
    (hnf : ∀ j, w.search j ≠ SearchOutcome.fatal)
    (hr : w.renewOk i = false)
    (hi : i < args.iterations.toNat) :
    Event.renewFailed i ∈ (runMain w args).1 ∧
    Event.browserLaunch i (iterProxy args i) ∈ (runMain w args).1 ∧
    (runMain w args).2 = RunResult.ok := by
  have ht := hopen.1
  refine ⟨?_, ?_, runMain_ok_of_no_fatal w args (fun _ => hopen) hnf⟩
  · apply mem_runMain_of_mem_iters w args _ (fun _ => hopen) hnf
    refine ⟨i, List.mem_range.mpr hi, ?_⟩
    rw [ht]
    exact renewFailed_mem_iter w args.query (buildProxies args) i hr
  · exact mem_runMain_of_mem_iters w args _ (fun _ => hopen) hnf
      ⟨i, List.mem_range.mpr hi, browserLaunch_mem_iter w args.tor args.query
        (buildProxies args) i⟩

/-- C6 witness: a tor run whose every NEWNYM signal fails still launches a
browser for iteration 0 and ends normally. -/
theorem C6_witness :
    Event.renewFailed 0 ∈ (runMain wRenewFail argsTor2).1 ∧
    Event.browserLaunch 0 (iterProxy argsTor2 0) ∈ (runMain wRenewFail argsTor2).1 ∧
    (runMain wRenewFail argsTor2).2 = RunResult.ok :=
  C6_renew_failure_nonfatal wRenewFail argsTor2 0 ⟨rfl, rfl, rfl, rfl⟩
    (fun _ h => SearchOutcome.noConfusion h) rfl (by decide)

/-! Browser lifetime accounting. -/

theorem live_append (a b : List Event) : live (a ++ b) = live a + live b := by
  simp only [live, List.filter_append, List.length_append]
  push_cast
  omega

theorem live_nil : live [] = 0 := rfl

theorem boundedLive_nil : BoundedLive [] := by
  intro n
  simp [live]

theorem filter_take_eq_nil (p : Event → Bool) (tr : List Event) (n : Nat)
    (h : tr.filter p = []) : (tr.take n).filter p = [] := by
  have hsub : List.Sublist ((tr.take n).filter p) (tr.filter p) :=
    (List.take_sublist n tr).filter p
  rw [h] at hsub
  exact List.sublist_nil.mp hsub

theorem live_of_no_browser (tr : List Event)
    (h1 : tr.filter isBrowserLaunch = []) (h2 : tr.filter isBrowserClose = []) :
    live tr = 0 := by
  simp [live, h1, h2]

theorem boundedLive_of_no_browser (tr : List Event)
    (h1 : tr.filter isBrowserLaunch = []) (h2 : tr.filter isBrowserClose = []) :
    BoundedLive tr := by
  intro n
  have e1 := filter_take_eq_nil _ tr n h1
  have e2 := filter_take_eq_nil _ tr n h2
  constructor <;> simp [live, e1, e2]

theorem boundedLive_append (a b : List Event) (ha0 : live a = 0)
    (ha : BoundedLive a) (hb : BoundedLive b) : BoundedLive (a ++ b) := by
  intro n
  rw [List.take_append_eq_append_take, live_append]
  rcases Nat.le_total n a.length with h | h
  · have h0 : n - a.length = 0 := Nat.sub_eq_zero_of_le h
    rw [h0]
    simpa [live_nil] using ha n
  · rw [List.take_of_length_le h, ha0]
    have hn := hb (n - a.length)
    constructor <;> omega

theorem iterPre_no_launch (w : World) (c : Bool) (ps : List (Option String)) (i : Nat) :
    (iterPre w c ps i).filter isBrowserLaunch = [] := by
  cases c <;> by_cases hr : w.renewOk i <;>
    simp [iterPre, renewEvents, hr, isBrowserLaunch]

theorem iterPre_no_close (w : World) (c : Bool) (ps : List (Option String)) (i : Nat) :
    (iterPre w c ps i).filter isBrowserClose = [] := by
  cases c <;> by_cases hr : w.renewOk i <;>
    simp [iterPre, renewEvents, hr, isBrowserClose]

theorem iterPost_no_launch (w : World) (i : Nat) :
    (iterPost w i).filter isBrowserLaunch = [] := by
  cases hs : w.search i <;> simp [iterPost, hs, isBrowserLaunch]

theorem iterPost_no_close (w : World) (i : Nat) :
    (iterPost w i).filter isBrowserClose = [] := by
  cases hs : w.search i <;> simp [iterPost, hs, isBrowserClose]

theorem live_core (ps : List (Option String)) (q : String) (i : Nat) :
    live (iterCore ps q i) = 0 := by
  simp [live, iterCore, new_browser, isBrowserLaunch, isBrowserClose]

theorem boundedLive_core (ps : List (Option String)) (q : String) (i : Nat) :
    BoundedLive (iterCore ps q i) := by
  intro n
  match n with
  | 0 => simp [live]
  | 1 =>
    constructor <;>
      simp [iterCore, new_browser, live, isBrowserLaunch, isBrowserClose]
  | 2 =>
    constructor <;>
      simp [iterCore, new_browser, live, isBrowserLaunch, isBrowserClose]
  | (n + 3) =>
    rw [List.take_of_length_le (by simp [iterCore, new_browser])]
    constructor <;> simp [live_core ps q i]

theorem live_iter (w : World) (c : Bool) (q : String) (ps : List (Option String))
    (i : Nat) : live (iterEvents w c q ps i).1 = 0 := by
  show live (iterPre w c ps i ++ (iterCore ps q i ++ iterPost w i)) = 0
  rw [live_append, live_append, live_core,
    live_of_no_browser _ (iterPre_no_launch w c ps i) (iterPre_no_close w c ps i),
    live_of_no_browser _ (iterPost_no_launch w i) (iterPost_no_close w i)]
  norm_num

theorem boundedLive_iter (w : World) (c : Bool) (q : String) (ps : List (Option String))
    (i : Nat) : BoundedLive (iterEvents w c q ps i).1 := by
  show BoundedLive (iterPre w c ps i ++ (iterCore ps q i ++ iterPost w i))
  refine boundedLive_append _ _
    (live_of_no_browser _ (iterPre_no_launch w c ps i) (iterPre_no_close w c ps i))
    (boundedLive_of_no_browser _ (iterPre_no_launch w c ps i) (iterPre_no_close w c ps i))
    (boundedLive_append _ _ (live_core ps q i) (boundedLive_core ps q i)
      (boundedLive_of_no_browser _ (iterPost_no_launch w i) (iterPost_no_close w i)))

theorem runIters_live (w : World) (c : Bool) (q : String) (ps : List (Option String))
    (l : List Nat) :
    BoundedLive (runIters w c q ps l).1 ∧ live (runIters w c q ps l).1 = 0 := by
  induction l with
  | nil => exact ⟨boundedLive_nil, rfl⟩
  | cons i rest ih =>
    simp only [runIters]
    cases hb : (iterEvents w c q ps i).2
    · simp only [hb, Bool.false_eq_true, if_false]
      constructor
      · exact boundedLive_append _ _ (live_iter w c q ps i) (boundedLive_iter w c q ps i) ih.1
      · rw [live_append, live_iter, ih.2]
        norm_num
    · simp only [hb, if_true]
      exact ⟨boundedLive_iter w c q ps i, live_iter w c q ps i⟩

theorem runMain_fst_shape (w : World) (args : Args) :
    (runMain w args).1 = [] ∨
    (runMain w args).1 = [Event.torAuth] ++ itersFst w args ∨
    (runMain w args).1 = [Event.torAuth] ++ (itersFst w args ++ [Event.controllerClose]) ∨
    (runMain w args).1 = itersFst w args := by
  by_cases ht : args.tor = true
  · by_cases hs : w.stemInstalled = false
    · exact Or.inl (by simp [runMain, ht, hs])
    · by_cases hp : passwdSet w.torPasswd = false
      · exact Or.inl (by simp [runMain, ht, hs, hp])
      · by_cases ha : w.torAuthOk = false
        · exact Or.inl (by simp [runMain, ht, hs, hp, ha])
        · simp only [Bool.not_eq_false] at hs hp ha
          cases hb : (runIters w true args.query (buildProxies args)
              (List.range args.iterations.toNat)).2
          · exact Or.inr (Or.inr (Or.inl
              (by simp [runMain, itersFst, ht, hs, hp, ha, hb])))
          · exact Or.inr (Or.inl (by simp [runMain, itersFst, ht, hs, hp, ha, hb]))
  · simp only [Bool.not_eq_true] at ht
    cases hb : (runIters w false args.query (buildProxies args)
        (List.range args.iterations.toNat)).2
    · exact Or.inr (Or.inr (Or.inr (by simp [runMain, itersFst, ht, hb])))
    · exact Or.inr (Or.inr (Or.inr (by simp [runMain, itersFst, ht, hb])))

theorem itersFst_live (w : World) (args : Args) :
    BoundedLive (itersFst w args) ∧ live (itersFst w args) = 0 :=
  runIters_live w args.tor args.query (buildProxies args)
    (List.range args.iterations.toNat)

theorem runMain_live (w : World) (args : Args) :
    BoundedLive (runMain w args).1 ∧ live (runMain w args).1 = 0 := by
  have hAuth1 : ([Event.torAuth] : List Event).filter isBrowserLaunch = [] := by
    simp [isBrowserLaunch]
  have hAuth2 : ([Event.torAuth] : List Event).filter isBrowserClose = [] := by
    simp [isBrowserClose]
  have hCl1 : ([Event.controllerClose] : List Event).filter isBrowserLaunch = [] := by
    simp [isBrowserLaunch]
  have hCl2 : ([Event.controllerClose] : List Event).filter isBrowserClose = [] := by
    simp [isBrowserClose]
  rcases runMain_fst_shape w args with h | h | h | h <;> rw [h]
  · exact ⟨boundedLive_nil, rfl⟩
  · constructor
    · exact boundedLive_append _ _ (live_of_no_browser _ hAuth1 hAuth2)
        (boundedLive_of_no_browser _ hAuth1 hAuth2) (itersFst_live w args).1
    · rw [live_append, live_of_no_browser _ hAuth1 hAuth2, (itersFst_live w args).2]
      norm_num
  · constructor
    · exact boundedLive_append _ _ (live_of_no_browser _ hAuth1 hAuth2)
        (boundedLive_of_no_browser _ hAuth1 hAuth2)
        (boundedLive_append _ _ (itersFst_live w args).2 (itersFst_live w args).1
          (boundedLive_of_no_browser _ hCl1 hCl2))
    · rw [live_append, live_append, live_of_no_browser _ hAuth1 hAuth2,
        (itersFst_live w args).2, live_of_no_browser _ hCl1 hCl2]
      norm_num
  · exact itersFst_live w args

theorem countLaunchAt_append (i : Nat) (a b : List Event) :
    countLaunchAt i (a ++ b) = countLaunchAt i a + countLaunchAt i b := by
  simp [countLaunchAt, List.filter_append]

theorem countLaunchAt_iter (i j : Nat) (w : World) (c : Bool) (q : String)
    (ps : List (Option String)) :
    countLaunchAt i (iterEvents w c q ps j).1 = if j = i then 1 else 0 := by
  show countLaunchAt i (iterPre w c ps j ++ (iterCore ps q j ++ iterPost w j)) = _
  rw [countLaunchAt_append, countLaunchAt_append]
  have h1 : countLaunchAt i (iterPre w c ps j) = 0 := by
    cases c <;> by_cases hr : w.renewOk j <;>
      simp [countLaunchAt, iterPre, renewEvents, hr, isLaunchAt]
  have h3 : countLaunchAt i (iterPost w j) = 0 := by
    cases hs : w.search j <;> simp [countLaunchAt, iterPost, hs, isLaunchAt]
  have h2 : countLaunchAt i (iterCore ps q j) = if j = i then 1 else 0 := by
    by_cases hj : j = i <;>
      simp [countLaunchAt, iterCore, new_browser, isLaunchAt, hj]
  rw [h1, h2, h3]
  omega

theorem countLaunchAt_runIters_zero (i : Nat) (w : World) (c : Bool) (q : String)
    (ps : List (Option String)) (l : List Nat) (h : i ∉ l) :
    countLaunchAt i (runIters w c q ps l).1 = 0 := by
  induction l with
  | nil => simp [runIters, countLaunchAt]
  | cons j rest ih =>
    have hji : j ≠ i := fun hEq => h (hEq ▸ List.mem_cons_self j rest)
    have hrest : i ∉ rest := fun hm => h (List.mem_cons_of_mem j hm)
    simp only [runIters]
    cases hb : (iterEvents w c q ps j).2
    · simp only [hb, Bool.false_eq_true, if_false]
      rw [countLaunchAt_append, countLaunchAt_iter, if_neg hji, ih hrest]
    · simp only [hb, if_true]
      rw [countLaunchAt_iter, if_neg hji]

theorem countLaunchAt_runIters_le_one (i : Nat) (w : World) (c : Bool) (q : String)
    (ps : List (Option String)) (l : List Nat) (h : l.Nodup) :
    countLaunchAt i (runIters w c q ps l).1 ≤ 1 := by
  induction l with
  | nil => simp [runIters, countLaunchAt]
  | cons j rest ih =>
    rw [List.nodup_cons] at h
    simp only [runIters]
    cases hb : (iterEvents w c q ps j).2
    · simp only [hb, Bool.false_eq_true, if_false]
      rw [countLaunchAt_append, countLaunchAt_iter]
      by_cases hji : j = i
      · rw [if_pos hji, countLaunchAt_runIters_zero i w c q ps rest (hji ▸ h.1)]
      · rw [if_neg hji]
        have := ih h.2
        omega
    · simp only [hb, if_true]
      rw [countLaunchAt_iter]
      split <;> omega

theorem countLaunchAt_runMain_le_one (i : Nat) (w : World) (args : Args) :
    countLaunchAt i (runMain w args).1 ≤ 1 := by
  have hiters : countLaunchAt i (itersFst w args) ≤ 1 :=
    countLaunchAt_runIters_le_one i w args.tor args.query (buildProxies args)
      (List.range args.iterations.toNat) (List.nodup_range args.iterations.toNat)
  have hAuth : countLaunchAt i [Event.torAuth] = 0 := by
    simp [countLaunchAt, isLaunchAt]
  have hCl : countLaunchAt i [Event.controllerClose] = 0 := by
    simp [countLaunchAt, isLaunchAt]
  rcases runMain_fst_shape w args with h | h | h | h <;> rw [h]
  · simp [countLaunchAt]
  · rw [countLaunchAt_append, hAuth]
    omega
  · rw [countLaunchAt_append, countLaunchAt_append, hAuth, hCl]
    omega
  · exact hiters

/-- C7: browser sessions have exact scoped lifetimes: at every prefix of a
run's trace at most one browser is live and closes never outnumber
launches; over the whole run every launched browser is closed again (even
when `run_search` raised), and no browser instance is launched twice — each
iteration gets its own fresh, non-overlapping session. -/
theorem C7_browser_lifecycle (w : World) (args : Args) (n : Nat) :
    (0 ≤ live ((runMain w args).1.take n) ∧ live ((runMain w args).1.take n) ≤ 1) ∧
    live (runMain w args).1 = 0 ∧
    (∀ i, countLaunchAt i (runMain w args).1 ≤ 1) :=
  ⟨(runMain_live w args).1 n, (runMain_live w args).2,
    fun i => countLaunchAt_runMain_le_one i w args⟩

theorem filter_launch_iter (w : World) (c : Bool) (q : String)
    (ps : List (Option String)) (i : Nat) :
    (iterEvents w c q ps i).1.filter isBrowserLaunch =
      [Event.browserLaunch i (selectProxy ps i)] := by
  show (iterPre w c ps i ++ (iterCore ps q i ++ iterPost w i)).filter isBrowserLaunch = _
  rw [List.filter_append, List.filter_append, iterPre_no_launch, iterPost_no_launch]
  simp [iterCore, new_browser, isBrowserLaunch]

theorem filter_search_iter (w : World) (c : Bool) (q : String)
    (ps : List (Option String)) (i : Nat) :
    (iterEvents w c q ps i).1.filter isSearchRun = [Event.searchRun i q] := by
  show (iterPre w c ps i ++ (iterCore ps q i ++ iterPost w i)).filter isSearchRun = _
  rw [List.filter_append, List.filter_append]
  have h1 : (iterPre w c ps i).filter isSearchRun = [] := by
    cases c <;> by_cases hr : w.renewOk i <;>
      simp [iterPre, renewEvents, hr, isSearchRun]
  have h3 : (iterPost w i).filter isSearchRun = [] := by
    cases hs : w.search i <;> simp [iterPost, hs, isSearchRun]
  rw [h1, h3]
  simp [iterCore, new_browser, isSearchRun]

/-- C8: with neither `--tor` nor proxies, every iteration runs direct
(selector is no-proxy); concretely, `query="test"`, `iterations=3` produces
exactly three browser launches, each with no proxy, and exactly three
search calls, each with query `"test"`, in order (stated on runs whose
searches raise no uncaught non-timeout error). -/
theorem C8_direct_run (w : World) (args : Args)
    (ht : args.tor = false) (hpl : args.proxy_list = [])
    (hq : args.query = "test") (hn : args.iterations = 3)
    (hnf : ∀ j, w.search j ≠ SearchOutcome.fatal) :
    (∀ i, iterProxy args i = Option.none) ∧
    (runMain w args).1.filter isBrowserLaunch =
      [Event.browserLaunch 0 Option.none, Event.browserLaunch 1 Option.none,
        Event.browserLaunch 2 Option.none] ∧
    (runMain w args).1.filter isSearchRun =
      [Event.searchRun 0 "test", Event.searchRun 1 "test", Event.searchRun 2 "test"] := by
  have hsel : ∀ i, selectProxy (buildProxies args) i = Option.none := by
    intro i
    unfold selectProxy buildProxies
    rw [if_neg (by simp [ht]), if_pos (by simp [hpl])]
    simp [Nat.mod_one]
  have hrw := runIters_eq_of_no_fatal w false args.query (buildProxies args)
    (List.range args.iterations.toNat) (fun j _ => hnf j)
  have htr : (runMain w args).1 = itersTrace w false args.query (buildProxies args)
      (List.range args.iterations.toNat) := by
    simp only [runMain, ht]
    norm_num
    rw [hrw]
    simp
  have hrange : List.range args.iterations.toNat = [0, 1, 2] := by
    rw [hn]
    rfl
  refine ⟨fun i => hsel i, ?_, ?_⟩
  · rw [htr, hrange]
    simp only [itersTrace, List.map_cons, List.map_nil, List.flatten_cons,
      List.flatten_nil, List.append_nil]
    rw [List.filter_append, List.filter_append, filter_launch_iter,
      filter_launch_iter, filter_launch_iter]
    simp [hsel]
  · rw [htr, hrange]
    simp only [itersTrace, List.map_cons, List.map_nil, List.flatten_cons,
      List.flatten_nil, List.append_nil]
    rw [List.filter_append, List.filter_append, filter_search_iter,
      filter_search_iter, filter_search_iter]
    simp [hq]

/-- C8 witness: the concrete end-to-end scenario with all searches
succeeding. -/
theorem C8_witness :
    (∀ i, iterProxy argsTest3 i = Option.none) ∧
    (runMain wGood argsTest3).1.filter isBrowserLaunch =
      [Event.browserLaunch 0 Option.none, Event.browserLaunch 1 Option.none,
        Event.browserLaunch 2 Option.none] ∧
    (runMain wGood argsTest3).1.filter isSearchRun =
      [Event.searchRun 0 "test", Event.searchRun 1 "test", Event.searchRun 2 "test"] :=
  C8_direct_run wGood argsTest3 rfl rfl rfl rfl
    (fun _ h => SearchOutcome.noConfusion h)

/-- C9: after submitting the query, `run_search` waits up to 20 time-units
(the 20 000 ms budget at line 75) for a result heading.  If none appears
the timeout propagates to the caller; if the wait succeeds and at least one
heading exists, the first heading in document order is clicked and the call
returns normally; if none exists, a warning is emitted, the click is
skipped, and the call still returns normally. -/
theorem C9_result_wait_and_click (pg : PageModel) (q : String)
    (hgoto : pg.gotoTimesOut = false) (hinput : pg.queryInputPresent = true) :
    resultTimeoutMs = 20 * 1000 ∧
    (pg.headingAppears = false →
      SEvent.waitResults resultTimeoutMs ∈ (run_search pg q).1 ∧
      (run_search pg q).2 = SResult.timeout) ∧
    (∀ h rest, pg.headingAppears = true → pg.headings = h :: rest →
      SEvent.clickResult h ∈ (run_search pg q).1 ∧
      (run_search pg q).2 = SResult.ok) ∧
    (pg.headingAppears = true → pg.headings = [] →
      SEvent.warnNoResults ∈ (run_search pg q).1 ∧
      (∀ h, SEvent.clickResult h ∉ (run_search pg q).1) ∧
      (run_search pg q).2 = SResult.ok) := by
  refine ⟨rfl, ?_, ?_, ?_⟩
  · intro hw
    by_cases hc1 : pg.consentLookupTimesOut <;> by_cases hc2 : pg.consentButton <;>
      simp [run_search, hgoto, hinput, hw, hc1, hc2]
  · intro h rest hw hh
    by_cases hc1 : pg.consentLookupTimesOut <;> by_cases hc2 : pg.consentButton <;>
      simp [run_search, hgoto, hinput, hw, hh, hc1, hc2]
  · intro hw hh
    by_cases hc1 : pg.consentLookupTimesOut <;> by_cases hc2 : pg.consentButton <;>
      simp [run_search, hgoto, hinput, hw, hh, hc1, hc2]

/-- C9 witness: a page whose navigation succeeds, whose input is present
and which shows one result heading. -/
theorem C9_witness :
    resultTimeoutMs = 20 * 1000 ∧
    (pgFound.headingAppears = false →
      SEvent.waitResults resultTimeoutMs ∈ (run_search pgFound qSample).1 ∧
      (run_search pgFound qSample).2 = SResult.timeout) ∧
    (∀ h rest, pgFound.headingAppears = true → pgFound.headings = h :: rest →
      SEvent.clickResult h ∈ (run_search pgFound qSample).1 ∧
      (run_search pgFound qSample).2 = SResult.ok) ∧
    (pgFound.headingAppears = true → pgFound.headings = [] →
      SEvent.warnNoResults ∈ (run_search pgFound qSample).1 ∧
      (∀ h, SEvent.clickResult h ∉ (run_search pgFound qSample).1) ∧
      (run_search pgFound qSample).2 = SResult.ok) :=
  C9_result_wait_and_click pgFound qSample rfl rfl

/-- C10: the command line accepts any integer for `--iterations`; for a
non-positive value the loop body never executes — no browser is launched
and no search runs — and the process exits normally, still closing the Tor
controller when one was opened. -/
theorem C10_nonpositive_iterations (w : World) (args : Args)
    (h1 : args.iterations ≤ 0)
    (h2 : args.tor = true → torOpenSucceeded w args) :
    (runMain w args).2 = RunResult.ok ∧
    (runMain w args).1.filter isBrowserLaunch = [] ∧
    (runMain w args).1.filter isSearchRun = [] ∧
    countEv Event.controllerClose (runMain w args).1 =
      (if args.tor = true then 1 else 0) := by
  have hn : args.iterations.toNat = 0 := Int.toNat_of_nonpos h1
  cases ht : args.tor with
  | true =>
    obtain ⟨-, hs, hp, ha⟩ := h2 ht
    have htr : runMain w args = ([Event.torAuth, Event.controllerClose], RunResult.ok) := by
      simp [runMain, ht, hs, hp, ha, hn, runIters]
    rw [htr]
    exact ⟨rfl, by simp [isBrowserLaunch], by simp [isSearchRun],
      by simp [countEv, ht]⟩
  | false =>
    have htr : runMain w args = ([], RunResult.ok) := by
      simp [runMain, ht, hn, runIters]
    rw [htr]
    exact ⟨rfl, rfl, rfl, by simp [countEv, ht]⟩

/-- C10 witness: `--iterations -3` with `--tor` and a working controller:
the run exits normally, launches nothing, and closes the controller once. -/
theorem C10_witness :
    (runMain wGood argsTorNeg).2 = RunResult.ok ∧
    (runMain wGood argsTorNeg).1.filter isBrowserLaunch = [] ∧
    (runMain wGood argsTorNeg).1.filter isSearchRun = [] ∧
    countEv Event.controllerClose (runMain wGood argsTorNeg).1 =
      (if argsTorNeg.tor = true then 1 else 0) :=
  C10_nonpositive_iterations wGood argsTorNeg (by decide)
    (fun _ => ⟨rfl, rfl, rfl, rfl⟩)
